import Mathlib

/-!
Shallow embedding of `src/sds200_scanner.py` (class `SDS200Scanner` and the
`continuous_scan` loop).

Modelling conventions:
* Network effects are oracles passed as explicit arguments: each call to
  `socket.connect` receives a `ConnectOutcome`, each `send_command` exchange
  receives a `WireOutcome` describing what the wire did (a raw decoded reply,
  a `socket.timeout`, or any other exception such as a broken pipe, reset or
  decode failure).  `datetime.now()` is an explicit `Nat` instant argument.
* `self.scanner_data` is the Python dict with its fixed key set, modelled as a
  structure; the open-ended `all_responses` dict is an association list with
  Python dict insert-or-replace semantics.
* `self.socket` is `Option Nat`: `none` is Python `None`, `some h` an open
  handle.  On a failed `connect`, `socket.socket(...)` has already reassigned
  `self.socket` to a fresh (unconnected) socket object before the exception
  from `connect((ip, port))`, so the model keeps a `some` handle there.
* Python `str.strip()` is `pyStrip` and `str.split(',')` is `pySplitComma`,
  both defined below by structural recursion over the character list with
  exactly the Python corner cases (`"".split(',') = ['']`,
  `"a,".split(',') = ['a','']`; `strip()` removes leading and trailing
  whitespace).
* The `command += '\r'` line-terminator append in `send_command` only affects
  the bytes written to the wire, which the oracle already abstracts, so it has
  no observable counterpart in the model.
-/

namespace SDS200

/-- Outcome of one `sendall`/`recv` exchange on the wire, as seen by
`send_command`: a successfully decoded raw reply, a `socket.timeout`, or any
other exception (broken pipe, reset, decode failure, `AttributeError`
excluded since the socket-is-`None` case is modelled by the state itself). -/
inductive WireOutcome where
  | reply (raw : String)
  | timeout
  | ioFailure (msg : String)
deriving DecidableEq, Repr

/-- Outcome of one `socket.connect((ip, port))` attempt.  On failure the
fresh handle created by `socket.socket(...)` has already been stored in
`self.socket`, and the exception message is what `str(e)` produces. -/
inductive ConnectOutcome where
  | success (handle : Nat)
  | failure (handle : Nat) (msg : String)
deriving DecidableEq, Repr

/-- Return value of `SDS200Scanner.parse_response`: Python `None`, a plain
string, or the structured STS dict. -/
inductive Parsed where
  | none
  | payload (s : String)
  | sts (frequency signal_strength mode volume squelch : Option String)
deriving DecidableEq, Repr

/-- The `self.scanner_data` dict (fixed key set), the published Snapshot. -/
structure ScannerData where
  timestamp : Option Nat
  connected : Bool
  model : Option String
  firmware : Option String
  frequency : Option String
  signal_strength : Option String
  volume : Option String
  squelch : Option String
  mode : Option String
  status : Option String
  error : Option String
  all_responses : List (String × String)
deriving DecidableEq, Repr

/-- The mutable state of one `SDS200Scanner` instance. -/
structure ScannerState where
  ip : String
  port : Nat
  socket : Option Nat
  scanner_data : ScannerData
deriving DecidableEq, Repr

/-- Python `str.strip()`: remove leading and trailing whitespace (the
protocol lines only ever carry ASCII whitespace such as `\r`/`\n`). -/
def pyStrip (s : String) : String :=
  String.mk (((s.data.dropWhile Char.isWhitespace).reverse.dropWhile
    Char.isWhitespace).reverse)

/-- Helper for `pySplitComma`: split a character list at every comma.  The
result is always nonempty. -/
def splitCommaAux : List Char → List (List Char)
  | [] => [[]]
  | c :: cs =>
      match splitCommaAux cs with
      | [] => [[]]
      | t :: ts => if c = ',' then [] :: t :: ts else (c :: t) :: ts

/-- Python `str.split(',')`: `"".split(',') = ['']`,
`"a,".split(',') = ['a', '']`, `"a,b".split(',') = ['a', 'b']`. -/
def pySplitComma (s : String) : List String :=
  (splitCommaAux s.data).map String.mk

/-- Python dict insert-or-replace (`d[k] = v`), keeping insertion order. -/
def updateAssoc (m : List (String × String)) (k v : String) :
    List (String × String) :=
  if m.any (fun p => p.1 = k) then m.map (fun p => if p.1 = k then (k, v) else p)
  else m ++ [(k, v)]

/-- `SDS200Scanner.__init__(ip, port)`: empty snapshot, no socket. -/
def initScanner (ip : String) (port : Nat) : ScannerState :=
  { ip := ip
    port := port
    socket := none
    scanner_data :=
      { timestamp := none
        connected := false
        model := none
        firmware := none
        frequency := none
        signal_strength := none
        volume := none
        squelch := none
        mode := none
        status := none
        error := none
        all_responses := [] } }

/-- `SDS200Scanner.connect`: on success stores the handle, sets
`connected := true` and clears `error`; on any exception sets
`connected := false` and `error := str(e)`, returning `False`.  The
exception never escapes. -/
def connect (st : ScannerState) (o : ConnectOutcome) : Bool × ScannerState :=
  match o with
  | ConnectOutcome.success h =>
      (true, { st with
                socket := some h
                scanner_data :=
                  { st.scanner_data with connected := true, error := none } })
  | ConnectOutcome.failure h msg =>
      (false, { st with
                socket := some h
                scanner_data :=
                  { st.scanner_data with connected := false, error := some msg } })

/-- `SDS200Scanner.disconnect`: `if self.socket:` close it and set
`connected := false` (the handle itself is never cleared back to `None`);
with no socket it does nothing.  Any exception is caught and only logged,
so the caller never sees an error. -/
def disconnect (st : ScannerState) : ScannerState :=
  match st.socket with
  | Option.none => st
  | Option.some _ =>
      { st with scanner_data := { st.scanner_data with connected := false } }

/-- `SDS200Scanner.send_command`: write the command, read up to 4096 bytes,
decode and strip.  `socket.timeout` and every other exception (including the
`AttributeError` from `self.socket = None`) are caught, logged, and turned
into `None`.  No branch mutates `self.socket` or `self.scanner_data`. -/
def send_command (st : ScannerState) (command : String) (w : WireOutcome) :
    Option String × ScannerState :=
  match st.socket with
  | Option.none => (none, st)
  | Option.some _ =>
      match w with
      | WireOutcome.reply raw => (some (pyStrip raw), st)
      | WireOutcome.timeout => (none, st)
      | WireOutcome.ioFailure _ => (none, st)

/-- `SDS200Scanner.parse_response`: falsy input gives `None`; otherwise split
on commas; `MDL`/`VER` with at least 2 fields give `parts[1]`; `STS` with at
least 2 fields gives the positional dict with `None` for missing positions;
everything else returns the raw line.  Nothing inside the `try` can raise, so
the `except` branch (also returning the raw line) is unreachable. -/
def parse_response (response : Option String) (command_type : String) : Parsed :=
  match response with
  | Option.none => Parsed.none
  | Option.some r =>
      if r = "" then Parsed.none
      else
        let parts := pySplitComma r
        if command_type = "MDL" ∧ 2 ≤ parts.length then
          Parsed.payload (parts.getD 1 "")
        else if command_type = "VER" ∧ 2 ≤ parts.length then
          Parsed.payload (parts.getD 1 "")
        else if command_type = "STS" ∧ 2 ≤ parts.length then
          Parsed.sts
            (if 1 < parts.length then some (parts.getD 1 "") else none)
            (if 2 < parts.length then some (parts.getD 2 "") else none)
            (if 3 < parts.length then some (parts.getD 3 "") else none)
            (if 4 < parts.length then some (parts.getD 4 "") else none)
            (if 5 < parts.length then some (parts.getD 5 "") else none)
        else Parsed.payload r

/-- `SDS200Scanner.get_model`: send `MDL`; on a truthy reply store the parsed
value in `model` and the raw line in `all_responses["MDL"]`.  For command
type `MDL` a truthy reply always parses to a string (`Parsed.payload`); the
other `Parsed` constructors cannot occur on this path. -/
def get_model (st : ScannerState) (w : WireOutcome) : ScannerState :=
  match send_command st "MDL" w with
  | (Option.none, st1) => st1
  | (Option.some r, st1) =>
      if r = "" then st1
      else
        let parsedModel : Option String :=
          match parse_response (some r) "MDL" with
          | Parsed.payload s => some s
          | _ => none
        { st1 with
          scanner_data :=
            { st1.scanner_data with
              model := parsedModel
              all_responses :=
                updateAssoc st1.scanner_data.all_responses "MDL" r } }

/-- `SDS200Scanner.get_firmware`: send `VER`; on a truthy reply store the
parsed value in `firmware` and the raw line in `all_responses["VER"]`. -/
def get_firmware (st : ScannerState) (w : WireOutcome) : ScannerState :=
  match send_command st "VER" w with
  | (Option.none, st1) => st1
  | (Option.some r, st1) =>
      if r = "" then st1
      else
        let parsedFw : Option String :=
          match parse_response (some r) "VER" with
          | Parsed.payload s => some s
          | _ => none
        { st1 with
          scanner_data :=
            { st1.scanner_data with
              firmware := parsedFw
              all_responses :=
                updateAssoc st1.scanner_data.all_responses "VER" r } }

/-- `SDS200Scanner.get_status`: send `STS`; on a truthy reply, if the parse
result is a dict, `scanner_data.update(status)` overwrites the five
structured fields; in every truthy case the raw line is stored in both
`status` and `all_responses["STS"]`. -/
def get_status (st : ScannerState) (w : WireOutcome) : ScannerState :=
  match send_command st "STS" w with
  | (Option.none, st1) => st1
  | (Option.some r, st1) =>
      if r = "" then st1
      else
        let d := st1.scanner_data
        let d1 :=
          match parse_response (some r) "STS" with
          | Parsed.sts f s m v q =>
              { d with
                frequency := f
                signal_strength := s
                mode := m
                volume := v
                squelch := q }
          | _ => d
        { st1 with
          scanner_data :=
            { d1 with
              status := some r
              all_responses := updateAssoc d1.all_responses "STS" r } }

/-- `SDS200Scanner.pull_all_data`: stamp `timestamp` with the current
instant first; if disconnected, try `connect`, returning `False` on failure;
otherwise run the three getters in MDL, VER, STS order and return `True`.
The getters catch all their exceptions internally, so the surrounding
`except` branch cannot fire and is not modelled. -/
def pull_all_data (st : ScannerState) (now : Nat) (co : ConnectOutcome)
    (wMDL wVER wSTS : WireOutcome) : Bool × ScannerState :=
  let st0 : ScannerState :=
    { st with scanner_data := { st.scanner_data with timestamp := some now } }
  match (if st0.scanner_data.connected then (true, st0) else connect st0 co) with
  | (false, st1) => (false, st1)
  | (true, st1) =>
      (true, get_status (get_firmware (get_model st1 wMDL) wVER) wSTS)

/-- The per-cycle inputs of one iteration of `continuous_scan`: the instant
`datetime.now()` will report, the outcome of the loop-level `connect` call
(used only when the cycle starts disconnected), the outcome of the
`connect` inside `pull_all_data` (used only when still disconnected), and
the three wire exchanges. -/
structure CycleInput where
  now : Nat
  co1 : ConnectOutcome
  co2 : ConnectOutcome
  wMDL : WireOutcome
  wVER : WireOutcome
  wSTS : WireOutcome
deriving DecidableEq, Repr

/-- One iteration of the `continuous_scan` while-loop body: reconnect if
disconnected, `pull_all_data`, then `save_to_file` publishes
`scanner_data` (the published snapshot is the `scanner_data` of the
returned state).  The sleep and the outer exception handler have no
observable effect on this path. -/
def continuous_scan_step (st : ScannerState) (inp : CycleInput) : ScannerState :=
  let st1 := if st.scanner_data.connected then st else (connect st inp.co1).2
  (pull_all_data st1 inp.now inp.co2 inp.wMDL inp.wVER inp.wSTS).2

/-- Run `continuous_scan` for the given list of cycle inputs, collecting the
snapshot published (written by `save_to_file`) at the end of each cycle. -/
def continuous_scan_run (st : ScannerState) : List CycleInput → List ScannerData
  | [] => []
  | inp :: rest =>
      let st1 := continuous_scan_step st inp
      st1.scanner_data :: continuous_scan_run st1 rest

/-! ## Concrete states used by witnesses and counterexamples -/

/-- A state after a fully successful previous cycle: connected, socket open,
every snapshot field holding the values parsed from that cycle. -/
def stalePrior : ScannerState :=
  { ip := "192.168.2.251"
    port := 10001
    socket := some 0
    scanner_data :=
      { timestamp := some 0
        connected := true
        model := some "BCD325P2"
        firmware := some "1.02.00"
        frequency := some "154.6700"
        signal_strength := some "60"
        volume := some "8"
        squelch := some "2"
        mode := some "NFM"
        status := some "STS,154.6700,60,NFM,8,2"
        error := none
        all_responses :=
          [("MDL", "MDL,BCD325P2,"), ("VER", "VER,1.02.00,"),
           ("STS", "STS,154.6700,60,NFM,8,2")] } }

/-! ## Helper lemmas -/

/-- `send_command` never mutates the scanner state. -/
theorem send_command_snd (st : ScannerState) (cmd : String) (w : WireOutcome) :
    (send_command st cmd w).2 = st := by
  cases h : st.socket <;> cases w <;> simp [send_command, h]

/-- A timeout or any non-timeout exception both make `send_command` return
`None` with the state untouched. -/
theorem send_command_no_reply (st : ScannerState) (cmd : String) :
    send_command st cmd WireOutcome.timeout = (none, st) ∧
    ∀ msg, send_command st cmd (WireOutcome.ioFailure msg) = (none, st) := by
  cases h : st.socket <;> simp [send_command, h]

/-- When `send_command` produced `None`, `get_model` is the identity. -/
theorem get_model_of_no_response (st : ScannerState) (w : WireOutcome)
    (h : send_command st "MDL" w = (none, st)) : get_model st w = st := by
  simp [get_model, h]

/-- When `send_command` produced `None`, `get_firmware` is the identity. -/
theorem get_firmware_of_no_response (st : ScannerState) (w : WireOutcome)
    (h : send_command st "VER" w = (none, st)) : get_firmware st w = st := by
  simp [get_firmware, h]

/-- When `send_command` produced `None`, `get_status` is the identity. -/
theorem get_status_of_no_response (st : ScannerState) (w : WireOutcome)
    (h : send_command st "STS" w = (none, st)) : get_status st w = st := by
  simp [get_status, h]

/-- `get_model` only ever touches `model` and `all_responses`. -/
theorem get_model_frame (st : ScannerState) (w : WireOutcome) :
    (get_model st w).ip = st.ip ∧
    (get_model st w).port = st.port ∧
    (get_model st w).socket = st.socket ∧
    (get_model st w).scanner_data.timestamp = st.scanner_data.timestamp ∧
    (get_model st w).scanner_data.connected = st.scanner_data.connected ∧
    (get_model st w).scanner_data.error = st.scanner_data.error ∧
    (get_model st w).scanner_data.frequency = st.scanner_data.frequency ∧
    (get_model st w).scanner_data.firmware = st.scanner_data.firmware := by
  cases h : st.socket <;> cases w <;> simp [get_model, send_command, h] <;> split <;> simp [h]

/-- `get_firmware` only ever touches `firmware` and `all_responses`. -/
theorem get_firmware_frame (st : ScannerState) (w : WireOutcome) :
    (get_firmware st w).ip = st.ip ∧
    (get_firmware st w).port = st.port ∧
    (get_firmware st w).socket = st.socket ∧
    (get_firmware st w).scanner_data.timestamp = st.scanner_data.timestamp ∧
    (get_firmware st w).scanner_data.connected = st.scanner_data.connected ∧
    (get_firmware st w).scanner_data.error = st.scanner_data.error ∧
    (get_firmware st w).scanner_data.model = st.scanner_data.model := by
  cases h : st.socket <;> cases w <;> simp [get_firmware, send_command, h] <;> split <;> simp [h]

/-- `get_status` never touches `timestamp`, `connected`, `error`, `model`
or `firmware`. -/
theorem get_status_frame (st : ScannerState) (w : WireOutcome) :
    (get_status st w).ip = st.ip ∧
    (get_status st w).port = st.port ∧
    (get_status st w).socket = st.socket ∧
    (get_status st w).scanner_data.timestamp = st.scanner_data.timestamp ∧
    (get_status st w).scanner_data.connected = st.scanner_data.connected ∧
    (get_status st w).scanner_data.error = st.scanner_data.error ∧
    (get_status st w).scanner_data.model = st.scanner_data.model ∧
    (get_status st w).scanner_data.firmware = st.scanner_data.firmware := by
  cases h : st.socket <;> cases w <;> simp [get_status, send_command, h] <;>
    split <;> (try split) <;> simp [h]

/-! ## Claim C1 -/

/-- Claim C1, counterexample: the STS reply `STS` has a single comma field
(fewer than 6), parsing does not raise, yet after `get_status` the
`frequency` field still holds the previous cycle value `154.6700` instead of
being overwritten with an explicit no-value marker. -/
theorem sts_one_field_reply_retains_stale_frequency :
    (pySplitComma "STS").length < 6 ∧
    (get_status stalePrior (WireOutcome.reply "STS")).scanner_data.frequency =
      some "154.6700" ∧
    (get_status stalePrior (WireOutcome.reply "STS")).scanner_data.frequency ≠
      none := by
  refine ⟨by decide, by decide, by decide⟩

/-- Claim C1 (amended): for every STS reply that is already stripped,
nonempty, and has at least 2 but fewer than 6 comma fields, parsing succeeds
and each of the positions frequency, signal_strength, mode, volume, squelch
that is missing from the reply is overwritten in the snapshot with `none`;
a reply with fewer than 2 comma fields instead leaves the five structured
fields untouched (only `status` and `all_responses` are overwritten). -/
theorem sts_short_reply_fills_missing_with_none (st : ScannerState) (h : Nat)
    (raw : String) (hsock : st.socket = some h) (hstrip : pyStrip raw = raw)
    (hne : raw ≠ "") (h2 : 2 ≤ (pySplitComma raw).length)
    (h6 : (pySplitComma raw).length < 6) :
    parse_response (some raw) "STS" =
      Parsed.sts
        (some ((pySplitComma raw).getD 1 ""))
        (if 2 < (pySplitComma raw).length then
            some ((pySplitComma raw).getD 2 "") else none)
        (if 3 < (pySplitComma raw).length then
            some ((pySplitComma raw).getD 3 "") else none)
        (if 4 < (pySplitComma raw).length then
            some ((pySplitComma raw).getD 4 "") else none)
        none ∧
    (get_status st (WireOutcome.reply raw)).scanner_data.frequency =
      some ((pySplitComma raw).getD 1 "") ∧
    (get_status st (WireOutcome.reply raw)).scanner_data.signal_strength =
      (if 2 < (pySplitComma raw).length then
          some ((pySplitComma raw).getD 2 "") else none) ∧
    (get_status st (WireOutcome.reply raw)).scanner_data.mode =
      (if 3 < (pySplitComma raw).length then
          some ((pySplitComma raw).getD 3 "") else none) ∧
    (get_status st (WireOutcome.reply raw)).scanner_data.volume =
      (if 4 < (pySplitComma raw).length then
          some ((pySplitComma raw).getD 4 "") else none) ∧
    (get_status st (WireOutcome.reply raw)).scanner_data.squelch = none := by
  have hsend : send_command st "STS" (WireOutcome.reply raw) = (some raw, st) := by
    simp [send_command, hsock, hstrip]
  have h1 : 1 < (pySplitComma raw).length := by omega
  have h5 : ¬ 5 < (pySplitComma raw).length := by omega
  have hparse : parse_response (some raw) "STS" =
      Parsed.sts
        (some ((pySplitComma raw).getD 1 ""))
        (if 2 < (pySplitComma raw).length then
            some ((pySplitComma raw).getD 2 "") else none)
        (if 3 < (pySplitComma raw).length then
            some ((pySplitComma raw).getD 3 "") else none)
        (if 4 < (pySplitComma raw).length then
            some ((pySplitComma raw).getD 4 "") else none)
        none := by
    simp [parse_response, hne, h2, h1, h5]
  refine ⟨hparse, ?_⟩
  simp [get_status, hsend, hne, hparse]

/-- Claim C1 witness: concrete 3-field instance of the amended theorem. -/
theorem sts_short_reply_fills_missing_with_none_witness :
    (get_status stalePrior (WireOutcome.reply "STS,462.5500,45")).scanner_data.squelch =
      none :=
  (sts_short_reply_fills_missing_with_none stalePrior 0 "STS,462.5500,45"
    rfl rfl (by decide) (by decide) (by decide)).2.2.2.2.2

/-! ## Claim C2 -/

/-- Claim C2, counterexample: from a connected state, a broken-pipe style
failure (any non-timeout exception) during `send_command` leaves
`connected = true` and keeps the socket handle, contradicting the claimed
teardown; `pull_all_data` in the next cycle therefore skips `connect`. -/
theorem send_failure_leaves_connection_cex :
    (send_command stalePrior "STS" (WireOutcome.ioFailure "broken pipe")).2.scanner_data.connected
        = true ∧
    (send_command stalePrior "STS" (WireOutcome.ioFailure "broken pipe")).2.socket
        = some 0 := by
  refine ⟨by decide, by decide⟩

/-- Claim C2 (amended): a send or receive failure other than a timeout is
caught inside `send_command`, which returns `None` and leaves the whole
scanner state unchanged: `connected` stays as it was and the socket handle
is kept.  Consequently, when the state is connected, the following poll
cycle does not attempt `connect()` at all: its result is independent of
both connect outcomes of the cycle. -/
theorem send_failure_no_teardown (st : ScannerState) (cmd msg : String)
    (hc : st.scanner_data.connected = true) :
    send_command st cmd (WireOutcome.ioFailure msg) = (none, st) ∧
    ∀ inp : CycleInput, ∀ co1 co2 : ConnectOutcome,
      continuous_scan_step st { inp with co1 := co1, co2 := co2 } =
        continuous_scan_step st inp := by
  refine ⟨(send_command_no_reply st cmd).2 msg, ?_⟩
  intro inp co1 co2
  simp [continuous_scan_step, pull_all_data, hc]

/-- Claim C2 witness: concrete instance of the amended theorem. -/
theorem send_failure_no_teardown_witness :
    send_command stalePrior "STS" (WireOutcome.ioFailure "reset") =
      (none, stalePrior) :=
  (send_failure_no_teardown stalePrior "STS" "reset" rfl).1

/-! ## Claim C3 -/

/-- Claim C3, counterexample: in a connected cycle where the `MDL` command
times out, the timeout is not recorded in the snapshot `error` field (the
field keeps its prior value `none`), even though the following `VER` query
is still attempted and succeeds. -/
theorem timeout_error_not_recorded_cex :
    (pull_all_data stalePrior 7 (ConnectOutcome.failure 1 "unused")
        WireOutcome.timeout (WireOutcome.reply "VER,1.03.00,")
        (WireOutcome.reply "STS,154.6700,60,NFM,8,2")).2.scanner_data.error
      = none ∧
    (pull_all_data stalePrior 7 (ConnectOutcome.failure 1 "unused")
        WireOutcome.timeout (WireOutcome.reply "VER,1.03.00,")
        (WireOutcome.reply "STS,154.6700,60,NFM,8,2")).2.scanner_data.firmware
      = some "1.03.00" := by
  refine ⟨by decide, by decide⟩

/-- Claim C3 (amended): for every command timeout during a connected poll
cycle — whether the timed-out command is MDL, VER or STS — `connected` is
not changed to false, and the other field queries of the same cycle
(issued in MDL, VER, STS order) are still attempted: the cycle behaves
exactly as if the timed-out query had been skipped.  However the timeout
is not recorded in the snapshot `error` field, which keeps its previous
value (the timeout is only logged); indeed a connected cycle never writes
`connected` or `error` at all, whatever the three wire outcomes are. -/
theorem timeout_isolation (st : ScannerState) (now : Nat)
    (co : ConnectOutcome) (w1 w2 w3 : WireOutcome)
    (hc : st.scanner_data.connected = true) :
    (w1 = WireOutcome.timeout →
      (pull_all_data st now co w1 w2 w3).2 =
        get_status (get_firmware
          { st with scanner_data :=
              { st.scanner_data with timestamp := some now } } w2) w3) ∧
    (w2 = WireOutcome.timeout →
      (pull_all_data st now co w1 w2 w3).2 =
        get_status (get_model
          { st with scanner_data :=
              { st.scanner_data with timestamp := some now } } w1) w3) ∧
    (w3 = WireOutcome.timeout →
      (pull_all_data st now co w1 w2 w3).2 =
        get_firmware (get_model
          { st with scanner_data :=
              { st.scanner_data with timestamp := some now } } w1) w2) ∧
    (pull_all_data st now co w1 w2 w3).2.scanner_data.connected = true ∧
    (pull_all_data st now co w1 w2 w3).2.scanner_data.error =
      st.scanner_data.error := by
  have hpull : (pull_all_data st now co w1 w2 w3).2 =
      get_status (get_firmware (get_model
        { st with scanner_data :=
            { st.scanner_data with timestamp := some now } } w1) w2) w3 := by
    simp [pull_all_data, hc]
  refine ⟨?_, ?_, ?_, ?_, ?_⟩
  · intro h1
    rw [hpull, h1, get_model_of_no_response _ _ (send_command_no_reply _ _).1]
  · intro h2
    rw [hpull, h2, get_firmware_of_no_response _ _ (send_command_no_reply _ _).1]
  · intro h3
    rw [hpull, h3, get_status_of_no_response _ _ (send_command_no_reply _ _).1]
  · rw [hpull, (get_status_frame _ _).2.2.2.2.1,
      (get_firmware_frame _ _).2.2.2.2.1, (get_model_frame _ _).2.2.2.2.1]
    exact hc
  · rw [hpull, (get_status_frame _ _).2.2.2.2.2.1,
      (get_firmware_frame _ _).2.2.2.2.2.1, (get_model_frame _ _).2.2.2.2.2.1]

/-- Claim C3 witness: concrete cycle in which only the VER command times
out; the cycle equals the same cycle with the VER query skipped, so the STS
query was still attempted. -/
theorem timeout_isolation_witness :
    (pull_all_data stalePrior 7 (ConnectOutcome.failure 1 "unused")
        (WireOutcome.reply "MDL,BCD325P2,") WireOutcome.timeout
        (WireOutcome.reply "STS,154.6700,60,NFM,8,2")).2 =
      get_status (get_model
        { stalePrior with scanner_data :=
            { stalePrior.scanner_data with timestamp := some 7 } }
        (WireOutcome.reply "MDL,BCD325P2,"))
        (WireOutcome.reply "STS,154.6700,60,NFM,8,2") :=
  (timeout_isolation stalePrior 7 (ConnectOutcome.failure 1 "unused")
    (WireOutcome.reply "MDL,BCD325P2,") WireOutcome.timeout
    (WireOutcome.reply "STS,154.6700,60,NFM,8,2") rfl).2.1 rfl
/-! ## Claim C4 -/

/-- Claim C4, counterexample: the MDL reply `MDL` has fewer than 2 comma
fields, and `parse_response` returns the raw line itself (`MDL`) as the
payload, not a no-value marker. -/
theorem mdl_short_reply_passthrough_cex :
    (pySplitComma "MDL").length < 2 ∧
    parse_response (some "MDL") "MDL" = Parsed.payload "MDL" ∧
    parse_response (some "MDL") "MDL" ≠ Parsed.none := by
  refine ⟨by decide, by decide, by decide⟩

/-- Claim C4 (amended): for every nonempty MDL or VER reply,
`parse_response` returns the second comma field (index 1) as the payload
when at least 2 fields are present; when fewer than 2 fields are present it
returns the raw line itself as the payload (pass-through), not a no-value
marker, and it does not fail.  The raw reply `MDL,HP1,` parses the model as
`HP1`. -/
theorem mdl_ver_payload_parse (r : String) (hne : r ≠ "") :
    (2 ≤ (pySplitComma r).length →
      parse_response (some r) "MDL" =
        Parsed.payload ((pySplitComma r).getD 1 "") ∧
      parse_response (some r) "VER" =
        Parsed.payload ((pySplitComma r).getD 1 "")) ∧
    ((pySplitComma r).length < 2 →
      parse_response (some r) "MDL" = Parsed.payload r ∧
      parse_response (some r) "VER" = Parsed.payload r) ∧
    parse_response (some "MDL,HP1,") "MDL" = Parsed.payload "HP1" := by
  refine ⟨fun h2 => ?_, fun h2 => ?_, by decide⟩
  · constructor <;> simp [parse_response, hne, h2]
  · have h2' : ¬ 2 ≤ (pySplitComma r).length := by omega
    constructor <;> simp [parse_response, hne, h2']

/-- Claim C4 witness: concrete instance of the amended theorem at the
round-trip input `MDL,HP1,`. -/
theorem mdl_ver_payload_parse_witness :
    parse_response (some "MDL,HP1,") "MDL" =
      Parsed.payload ((pySplitComma "MDL,HP1,").getD 1 "") :=
  ((mdl_ver_payload_parse "MDL,HP1," (by decide)).1 (by decide)).1

/-- `connect` never touches `timestamp`. -/
theorem connect_timestamp (st : ScannerState) (o : ConnectOutcome) :
    (connect st o).2.scanner_data.timestamp = st.scanner_data.timestamp := by
  cases o <;> rfl

/-- `pull_all_data` stamps `timestamp` with the current instant on every
path, including a failed connect. -/
theorem pull_all_data_timestamp (st : ScannerState) (now : Nat)
    (co : ConnectOutcome) (w1 w2 w3 : WireOutcome) :
    (pull_all_data st now co w1 w2 w3).2.scanner_data.timestamp = some now := by
  by_cases hc : st.scanner_data.connected
  · simp [pull_all_data, hc, (get_status_frame _ _).2.2.2.1,
      (get_firmware_frame _ _).2.2.2.1, (get_model_frame _ _).2.2.2.1]
  · cases co <;>
      simp [pull_all_data, hc, connect, (get_status_frame _ _).2.2.2.1,
        (get_firmware_frame _ _).2.2.2.1, (get_model_frame _ _).2.2.2.1]

/-- Each cycle of `continuous_scan` publishes a snapshot stamped with that
cycle instant. -/
theorem continuous_scan_step_timestamp (st : ScannerState) (inp : CycleInput) :
    (continuous_scan_step st inp).scanner_data.timestamp = some inp.now := by
  simp [continuous_scan_step, pull_all_data_timestamp]

/-! ## Claim C5 -/

/-- The end-to-end scenario of the spec: one cycle from a fresh scanner with
a successful connect and the three canonical replies. -/
def scenarioResult : ScannerState :=
  (pull_all_data (initScanner "192.168.2.251" 10001) 1 (ConnectOutcome.success 0)
    (WireOutcome.reply "MDL,BCD325P2,") (WireOutcome.reply "VER,1.02.00,")
    (WireOutcome.reply "STS,154.6700,60,NFM,8,2")).2

/-- Claim C5: a well-formed 6-field STS reply parses positionally into
frequency, signal_strength, mode, volume, squelch; and in the scenario
cycle with replies `MDL,BCD325P2,`, `VER,1.02.00,` and
`STS,154.6700,60,NFM,8,2` the resulting snapshot is exactly the one the
spec describes, with `connected = true` and `error = none`. -/
theorem end_to_end_snapshot (r : String) (hne : r ≠ "")
    (h6 : (pySplitComma r).length = 6) :
    parse_response (some r) "STS" =
      Parsed.sts
        (some ((pySplitComma r).getD 1 ""))
        (some ((pySplitComma r).getD 2 ""))
        (some ((pySplitComma r).getD 3 ""))
        (some ((pySplitComma r).getD 4 ""))
        (some ((pySplitComma r).getD 5 "")) ∧
    scenarioResult.scanner_data.model = some "BCD325P2" ∧
    scenarioResult.scanner_data.firmware = some "1.02.00" ∧
    scenarioResult.scanner_data.frequency = some "154.6700" ∧
    scenarioResult.scanner_data.signal_strength = some "60" ∧
    scenarioResult.scanner_data.mode = some "NFM" ∧
    scenarioResult.scanner_data.volume = some "8" ∧
    scenarioResult.scanner_data.squelch = some "2" ∧
    scenarioResult.scanner_data.connected = true ∧
    scenarioResult.scanner_data.error = none := by
  have h2 : 2 ≤ (pySplitComma r).length := by omega
  have i1 : 1 < (pySplitComma r).length := by omega
  have i2 : 2 < (pySplitComma r).length := by omega
  have i3 : 3 < (pySplitComma r).length := by omega
  have i4 : 4 < (pySplitComma r).length := by omega
  have i5 : 5 < (pySplitComma r).length := by omega
  refine ⟨by simp [parse_response, hne, h2, i1, i2, i3, i4, i5], by decide,
    by decide, by decide, by decide, by decide, by decide, by decide,
    by decide, by decide⟩

/-- Claim C5 witness: the round-trip STS reply `STS,462.5500,45,FM,12,3`
parses to frequency `462.5500`, signal_strength `45`, mode `FM`,
volume `12`, squelch `3`. -/
theorem end_to_end_snapshot_witness :
    parse_response (some "STS,462.5500,45,FM,12,3") "STS" =
      Parsed.sts (some "462.5500") (some "45") (some "FM") (some "12")
        (some "3") := by
  have h := (end_to_end_snapshot "STS,462.5500,45,FM,12,3" (by decide)
    (by decide)).1
  simpa using h

/-! ## Claim C6 -/

/-- Claim C6: `connect` on success marks the connection active and clears
the last error; on failure it returns `False` carrying nothing fatal, the
underlying message is recorded in the snapshot `error` field, and the
connection stays inactive.  Moreover a poll cycle whose connect attempts
fail still completes, leaving `connected = false` and the message in
`error`. -/
theorem connect_result_spec (st : ScannerState) (h : Nat) (msg : String) :
    connect st (ConnectOutcome.success h) =
      (true, { st with
                socket := some h
                scanner_data :=
                  { st.scanner_data with connected := true, error := none } }) ∧
    connect st (ConnectOutcome.failure h msg) =
      (false, { st with
                socket := some h
                scanner_data :=
                  { st.scanner_data with connected := false, error := some msg } }) ∧
    (∀ inp : CycleInput, st.scanner_data.connected = false →
      inp.co1 = ConnectOutcome.failure h msg →
      inp.co2 = ConnectOutcome.failure h msg →
      (continuous_scan_step st inp).scanner_data.connected = false ∧
      (continuous_scan_step st inp).scanner_data.error = some msg) := by
  refine ⟨rfl, rfl, ?_⟩
  intro inp hdisc hco1 hco2
  simp [continuous_scan_step, hdisc, hco1, hco2, pull_all_data, connect]

/-- Claim C6 witness: a cycle from a fresh scanner whose connect attempts
are refused publishes `connected = false` with the error recorded. -/
theorem connect_result_spec_witness :
    (continuous_scan_step (initScanner "192.168.2.251" 10001)
        { now := 3
          co1 := ConnectOutcome.failure 1 "connection refused"
          co2 := ConnectOutcome.failure 1 "connection refused"
          wMDL := WireOutcome.timeout
          wVER := WireOutcome.timeout
          wSTS := WireOutcome.timeout }).scanner_data.connected = false :=
  ((connect_result_spec (initScanner "192.168.2.251" 10001) 1
      "connection refused").2.2 _ rfl rfl rfl).1

/-! ## Claim C7 -/

/-- Claim C7: every poll cycle stamps the published snapshot timestamp with
that cycle instant and publishes it, even when connect fails and no data is
pulled (one snapshot is published per cycle, each carrying its own cycle
instant); consequently, when the cycle instants are non-decreasing, the
published timestamp sequence is non-decreasing. -/
theorem publish_timestamps_monotone (st : ScannerState)
    (is : List CycleInput) :
    (continuous_scan_run st is).map ScannerData.timestamp =
      is.map (fun i => (some i.now : Option Nat)) ∧
    (List.Chain' (fun a b => a.now ≤ b.now) is →
      List.Chain' (fun a b : ScannerData =>
        a.timestamp.getD 0 ≤ b.timestamp.getD 0) (continuous_scan_run st is)) := by
  have hmap : ∀ st : ScannerState,
      (continuous_scan_run st is).map ScannerData.timestamp =
        is.map (fun i => (some i.now : Option Nat)) := by
    induction is with
    | nil => intro st; rfl
    | cons i rest ih =>
        intro st
        simp [continuous_scan_run, continuous_scan_step_timestamp, ih]
  refine ⟨hmap st, fun hch => ?_⟩
  have hopt : List.Chain' (fun a b : Option Nat => a.getD 0 ≤ b.getD 0)
      ((continuous_scan_run st is).map ScannerData.timestamp) := by
    rw [hmap st, List.chain'_map]
    exact hch.imp (fun a b hab => by simpa using hab)
  exact (@List.chain'_map _ _ (fun a b : Option Nat => a.getD 0 ≤ b.getD 0)
    ScannerData.timestamp (continuous_scan_run st is)).1 hopt

/-- A cycle whose every exchange succeeds, used by the C7 witness. -/
def cycleA : CycleInput :=
  { now := 3
    co1 := ConnectOutcome.success 0
    co2 := ConnectOutcome.success 0
    wMDL := WireOutcome.reply "MDL,BCD325P2,"
    wVER := WireOutcome.reply "VER,1.02.00,"
    wSTS := WireOutcome.reply "STS,154.6700,60,NFM,8,2" }

/-- A later cycle whose connect attempts are refused, used by the C7
witness. -/
def cycleB : CycleInput :=
  { now := 5
    co1 := ConnectOutcome.failure 1 "connection refused"
    co2 := ConnectOutcome.failure 1 "connection refused"
    wMDL := WireOutcome.timeout
    wVER := WireOutcome.timeout
    wSTS := WireOutcome.timeout }

/-- Claim C7 witness: two concrete cycles with non-decreasing instants give
non-decreasing published timestamps. -/
theorem publish_timestamps_monotone_witness :
    List.Chain' (fun a b : ScannerData =>
        a.timestamp.getD 0 ≤ b.timestamp.getD 0)
      (continuous_scan_run (initScanner "192.168.2.251" 10001)
        [cycleA, cycleB]) :=
  (publish_timestamps_monotone _ _).2
    (by simp [List.chain'_cons, List.chain'_singleton, cycleA, cycleB])

/-! ## Claim C8 -/

/-- Claim C8: starting from any state satisfying the basic reachability
invariant (no socket handle implies not connected), calling `disconnect`
twice in a row never raises for the caller (it is total), leaves
`connected = false` after each call, and the second call changes nothing:
`disconnect` is idempotent. -/
theorem disconnect_idempotent (st : ScannerState)
    (hinv : st.socket = none → st.scanner_data.connected = false) :
    disconnect (disconnect st) = disconnect st ∧
    (disconnect st).scanner_data.connected = false ∧
    (disconnect (disconnect st)).scanner_data.connected = false := by
  cases h : st.socket
  · simp [disconnect, h, hinv h]
  · simp [disconnect, h]

/-- Claim C8 witness: concrete instance on a connected state. -/
theorem disconnect_idempotent_witness :
    disconnect (disconnect stalePrior) = disconnect stalePrior :=
  (disconnect_idempotent stalePrior (by decide)).1

/-! ## Claim C9 -/

/-- Claim C9: `send_command` is total at its interface: for every command
string, every state (including one whose socket handle is `none` because no
socket has ever been opened) and every wire outcome, it returns either the
decoded, stripped response string or `none`, never mutates the state, and
never propagates an exception (all failure branches return `none`). -/
theorem send_command_total (st : ScannerState) (cmd : String)
    (w : WireOutcome) :
    (send_command st cmd w).2 = st ∧
    ((send_command st cmd w).1 = none ∨
      ∃ raw, w = WireOutcome.reply raw ∧
        (send_command st cmd w).1 = some (pyStrip raw)) ∧
    (st.socket = none → send_command st cmd w = (none, st)) := by
  refine ⟨send_command_snd st cmd w, ?_, fun h => by simp [send_command, h]⟩
  cases h : st.socket <;> cases w <;> simp [send_command, h]

/-- Claim C9 witness: with no socket ever opened, `send_command` returns
`none` and leaves the fresh state untouched even when the wire would have
replied. -/
theorem send_command_total_witness :
    send_command (initScanner "192.168.2.251" 10001) "MDL"
        (WireOutcome.reply "MDL,HP1,") =
      (none, initScanner "192.168.2.251" 10001) :=
  (send_command_total (initScanner "192.168.2.251" 10001) "MDL"
    (WireOutcome.reply "MDL,HP1,")).2.2 rfl

/-! ## Claim C10 -/

/-- Claim C10: when `send_command` yields no response (timeout, non-timeout
failure, or no socket), `get_model`, `get_firmware` and `get_status` each
leave the whole state — hence every snapshot field, the `error` field and
the `all_responses` mapping — unchanged, so the snapshot keeps whatever the
previous cycle produced. -/
theorem no_response_leaves_snapshot (st : ScannerState) (w : WireOutcome)
    (h : (send_command st "MDL" w).1 = none) :
    get_model st w = st ∧ get_firmware st w = st ∧ get_status st w = st := by
  have hp : send_command st "MDL" w = (none, st) := by
    have h2 := send_command_snd st "MDL" w
    rcases he : send_command st "MDL" w with ⟨a, b⟩
    rw [he] at h h2
    simp only at h h2
    rw [h, h2]
  exact ⟨get_model_of_no_response st w hp,
    get_firmware_of_no_response st w hp, get_status_of_no_response st w hp⟩

/-- Claim C10 witness: a timeout on a fully populated state changes
nothing. -/
theorem no_response_leaves_snapshot_witness :
    get_status stalePrior WireOutcome.timeout = stalePrior :=
  (no_response_leaves_snapshot stalePrior WireOutcome.timeout rfl).2.2

end SDS200
